import Mathlib

/-
Verification of the intent classification, QoS-extraction and caching engine
of the O-RAN Intent-MANO repository (src/nlp/intent_cache.py,
src/nlp/intent_processor.py, src/nlp/intent_parser.py).

Modelling conventions:
* Python floats are modelled as exact rationals (ℚ); all numeric literals in
  the source are exact decimals, so no rounding behaviour is relied upon.
* Python strings are modelled as Lean `String` / `List Char`; `str.lower`,
  `str.strip` and the regex classes `\s`, `\w`, `\d` are modelled over the
  ASCII subset exactly as CPython treats ASCII text (all inputs appearing in
  the source and in the spec are ASCII).
* The regular expressions of the source are small fixed patterns; each is
  translated into an explicit leftmost-search matcher with the same greedy /
  backtracking behaviour (documented per matcher).
* `hashlib.sha256(...).hexdigest()` is an external primitive; it is modelled
  as an arbitrary function parameter `sha : String → String` applied to the
  normalized text, exactly as `PerformanceIntentCache._compute_hash` does.
* `time.time()` is modelled by explicit rational time parameters.
* The thread lock serializes cache operations; operations are modelled as
  sequential state transitions on the cache state.
-/

/-! ## Character classes (ASCII, as used by CPython and its `re`/`regex` modules) -/

/-- Python `string.whitespace` and the regex class `\s` on ASCII text:
space, tab, newline, carriage return, vertical tab, form feed. -/
def isPyWhitespace (c : Char) : Bool :=
  c.toNat = 32 || c.toNat = 9 || c.toNat = 10 || c.toNat = 13 || c.toNat = 11 || c.toNat = 12

/-- Python `string.punctuation`: the ASCII printable characters that are
neither alphanumeric nor space (codes 33-47, 58-64, 91-96, 123-126). -/
def isPyPunct (c : Char) : Bool :=
  (33 ≤ c.toNat && c.toNat ≤ 47) || (58 ≤ c.toNat && c.toNat ≤ 64) ||
  (91 ≤ c.toNat && c.toNat ≤ 96) || (123 ≤ c.toNat && c.toNat ≤ 126)

/-- Regex class `\w` on ASCII text: letters, digits and underscore. -/
def isWordChar (c : Char) : Bool :=
  c.isAlphanum || c = '_'

/-- Python `str.lower` on ASCII text. -/
def pyLower (cs : List Char) : List Char :=
  cs.map Char.toLower

/-- Python `str.strip()` on ASCII text: drop leading and trailing whitespace. -/
def pyStrip (cs : List Char) : List Char :=
  ((cs.dropWhile isPyWhitespace).reverse.dropWhile isPyWhitespace).reverse

/-- Helper for `collapseWs`: the boolean records whether the previous emitted
character position was inside a whitespace run. -/
def collapseWsAux : Bool → List Char → List Char
  | _, [] => []
  | prevSp, c :: cs =>
    if isPyWhitespace c then
      if prevSp then collapseWsAux true cs else ' ' :: collapseWsAux true cs
    else c :: collapseWsAux false cs

/-- Python `re.sub(r"\s+", " ", s)`: every maximal whitespace run becomes one space. -/
def collapseWs (cs : List Char) : List Char :=
  collapseWsAux false cs

/-- Normalization performed by `PerformanceIntentCache._compute_hash`
(src/nlp/intent_cache.py lines 163-169): lowercase, strip, collapse
internal whitespace runs to a single space. -/
def pyNormalize (s : String) : String :=
  String.mk (collapseWs (pyStrip (pyLower s.toList)))

/-- Model of `PerformanceIntentCache._compute_hash`: the SHA-256 hex digest
(`hashlib`, an external primitive, modelled as the parameter `sha`) of the
normalized intent text. -/
def computeHash (sha : String → String) (intent : String) : String :=
  sha (pyNormalize intent)

/-! ## Data model (src/nlp/intent_processor.py) -/

/-- Model of `ServiceType` (src/nlp/intent_processor.py lines 14-24), in
declaration order. -/
inductive ServiceType where
  | EMBB
  | URLLC
  | MMTC
  | GAMING
  | VIDEO
  | VOICE
  | IOT
  | CRITICAL
deriving DecidableEq

/-- Model of the `QoSParameters` dataclass (src/nlp/intent_processor.py
lines 27-40). -/
structure QoSParameters where
  max_latency_ms : ℚ
  min_throughput_mbps : ℚ
  max_packet_loss_rate : ℚ
  max_jitter_ms : ℚ
  reliability_percent : ℚ
  priority : ℕ
deriving DecidableEq

/-- Model of the `IntentResult` dataclass (src/nlp/intent_processor.py
lines 43-62); `placement_hints` is the dict in insertion order. -/
structure IntentResult where
  original_intent : String
  service_type : ServiceType
  qos_parameters : QoSParameters
  placement_hints : List (String × String)
  confidence : ℚ
deriving DecidableEq

/-- Model of `IntentProcessor.default_qos` (src/nlp/intent_processor.py
lines 179-244). -/
def defaultQos : ServiceType → QoSParameters
  | ServiceType.GAMING => ⟨10, 5, 0.001, 2, 99.9, 8⟩
  | ServiceType.VIDEO => ⟨100, 25, 0.01, 10, 99, 6⟩
  | ServiceType.URLLC => ⟨5, 1, 0.00001, 1, 99.999, 10⟩
  | ServiceType.EMBB => ⟨50, 100, 0.001, 5, 99.9, 7⟩
  | ServiceType.VOICE => ⟨20, 0.1, 0.001, 3, 99.99, 8⟩
  | ServiceType.IOT => ⟨1000, 0.01, 0.01, 100, 99, 3⟩
  | ServiceType.CRITICAL => ⟨10, 1, 0.00001, 1, 99.999, 10⟩
  | ServiceType.MMTC => ⟨10000, 0.001, 0.1, 1000, 95, 2⟩

/-- Model of `IntentProcessor._get_base_qos` (src/nlp/intent_processor.py
lines 361-363): a fresh copy of the default profile for the service type. -/
def getBaseQos (serviceType : ServiceType) : QoSParameters :=
  defaultQos serviceType

/-! ## Pattern matchers

Each compiled regex of `PerformanceIntentCache._compile_patterns`
(src/nlp/intent_cache.py lines 70-110) is translated to an explicit matcher.
A matcher of type `List Char → Option α` attempts a match anchored at the
head of the list; `searchPos` turns it into `re.search` semantics (leftmost
successful position wins). All matching is done on lowercased text, which is
equivalent to `re.IGNORECASE` since every literal in the patterns is
lowercase ASCII. -/

/-- Value of a Python decimal numeral with integer part `ip` and fractional
part `fp` (digit lists), as `float` parses it. -/
def digitsToNat (ds : List Char) : ℕ :=
  ds.foldl (fun a c => a * 10 + (c.toNat - 48)) 0

/-- Decimal value `ip.fp` as an exact rational. -/
def decValue (ip fp : List Char) : ℚ :=
  (digitsToNat ip : ℚ) + (digitsToNat fp : ℚ) / (10 : ℚ) ^ fp.length

/-- Parses `(\d+(?:\.\d+)?)` anchored at the head: the greedy parse (with the
optional fraction) first, then the backtracked parse without it. Each
candidate is the captured numeric value paired with the remaining text. -/
def numCandidates (cs : List Char) : List (ℚ × List Char) :=
  let ip := cs.takeWhile Char.isDigit
  let r1 := cs.dropWhile Char.isDigit
  if ip = [] then []
  else
    match r1 with
    | '.' :: r2 =>
      let fp := r2.takeWhile Char.isDigit
      if fp = [] then [(decValue ip [], r1)]
      else [(decValue ip fp, r2.dropWhile Char.isDigit), (decValue ip [], r1)]
    | _ => [(decValue ip [], r1)]

/-- Matches `\s*` (greedy; safe because every following pattern element in
the source regexes begins with a non-whitespace literal). -/
def dropSpaces (cs : List Char) : List Char :=
  cs.dropWhile isPyWhitespace

/-- Matches a literal, returning the remaining text. -/
def lit (pat cs : List Char) : Option (List Char) :=
  if pat.isPrefixOf cs then some (cs.drop pat.length) else none

/-- Matcher for `(\d+(?:\.\d+)?)\s*ms\s*latency` anchored at the head,
returning the captured number (latency rule 1). -/
def lat1At (cs : List Char) : Option ℚ :=
  (numCandidates cs).findSome? fun p =>
    match lit "ms".toList (dropSpaces p.2) with
    | some r => if (lit "latency".toList (dropSpaces r)).isSome then some p.1 else none
    | none => none

/-- Matcher for `latency\s*[<≤]\s*(\d+(?:\.\d+)?)\s*ms` anchored at the head
(latency rule 2). -/
def lat2At (cs : List Char) : Option ℚ :=
  match lit "latency".toList cs with
  | some r1 =>
    match dropSpaces r1 with
    | c :: r2 =>
      if c = '<' || c = '≤' then
        (numCandidates (dropSpaces r2)).findSome? fun p =>
          if (lit "ms".toList (dropSpaces p.2)).isSome then some p.1 else none
      else none
    | [] => none
  | none => none

/-- Matcher for `ultra[-\s]?low\s*latency` anchored at the head, yielding the
fixed constant 10.0 (latency rule 3); the optional separator is tried both
with and without, as the regex engine backtracks. -/
def lat3At (cs : List Char) : Option ℚ :=
  match lit "ultra".toList cs with
  | some r1 =>
    let cands :=
      match r1 with
      | c :: r2 => if c = '-' || isPyWhitespace c then [r2, r1] else [r1]
      | [] => [r1]
    if cands.any fun r =>
        match lit "low".toList r with
        | some r3 => (lit "latency".toList (dropSpaces r3)).isSome
        | none => false
    then some 10 else none
  | none => none

/-- Matcher for a two-word fixed-constant phrase `w1\s*w2` anchored at the
head, yielding constant `v`. -/
def phraseAt (w1 w2 : String) (v : ℚ) (cs : List Char) : Option ℚ :=
  match lit w1.toList cs with
  | some r => if (lit w2.toList (dropSpaces r)).isSome then some v else none
  | none => none

/-- Matcher for `(\d+(?:\.\d+)?)\s*UNIT` anchored at the head, returning the
captured number scaled by `scale` (used for the `[Mm]bps` rule with scale 1
and the `[Gg]bps` rule with scale 1000, mirroring `lambda x: float(x) * 1000`). -/
def unitNumAt (unit : String) (scale : ℚ) (cs : List Char) : Option ℚ :=
  (numCandidates cs).findSome? fun p =>
    if (lit unit.toList (dropSpaces p.2)).isSome then some (p.1 * scale) else none

/-- Turns an anchored matcher into `re.search`: try every position from the
left, first successful position wins. -/
def searchPos {α : Type} (m : List Char → Option α) : List Char → Option α
  | [] => m []
  | c :: cs =>
    match m (c :: cs) with
    | some v => some v
    | none => searchPos m cs

/-- The ordered latency rule list of `_compile_patterns`
(src/nlp/intent_cache.py lines 75-87), recording for each row its pattern
and the numeric value paired with it. CAUTION: rows 3-5 pair their patterns
with the plain floats 10.0 / 20.0 / 50.0, which are NOT callable, so when
one of them is the first latency match `_fast_qos_extraction` raises
`TypeError` at its `extractor()` call (line 201) instead of producing the
value recorded here; `latencyRulesE` models that call faithfully. Theorems
evaluate this list only on texts whose first latency match is row 1, where
it coincides with the source. -/
def latencyRules : List (List Char → Option ℚ) :=
  [searchPos lat1At, searchPos lat2At, searchPos lat3At,
   searchPos (phraseAt "low" "latency" 20), searchPos (phraseAt "moderate" "latency" 50)]

/-- The ordered throughput rule list of `_compile_patterns`
(src/nlp/intent_cache.py lines 90-102). -/
def throughputRules : List (List Char → Option ℚ) :=
  [searchPos (unitNumAt "mbps" 1), searchPos (unitNumAt "gbps" 1000),
   searchPos (phraseAt "high" "bandwidth" 100), searchPos (phraseAt "moderate" "bandwidth" 10),
   searchPos (phraseAt "low" "bandwidth" 1)]

/-- First-match-wins evaluation of an ordered rule list, as the
`for pattern, extractor in ...: if match: ...; break` loops of
`_fast_qos_extraction` (src/nlp/intent_cache.py lines 195-214). -/
def extractFirst : List (List Char → Option ℚ) → List Char → Option ℚ
  | [], _ => none
  | r :: rs, cs =>
    match r cs with
    | some v => some v
    | none => extractFirst rs cs

/-- Python substring containment `pat in cs`. -/
def containsSub (pat : List Char) : List Char → Bool
  | [] => pat.isPrefixOf ([] : List Char)
  | c :: cs => pat.isPrefixOf (c :: cs) || containsSub pat cs

/-- Extractor of the `(\d+)\s*nines` reliability rule of
`IntentProcessor.qos_patterns` (src/nlp/intent_processor.py line 171):
`lambda x: 100 - 10 ** (-int(x)) * 100`. -/
def ninesExtract (n : ℕ) : ℚ :=
  100 - (10 : ℚ) ^ (-(n : ℤ)) * 100

/-! ## Keyword scanning (service type detection)

`_compile_patterns` builds, for each service type, the regex
`\b(?:kw1|kw2|...)\b` (alternatives in list order, `re.IGNORECASE`) and
`_fast_service_type_detection` counts its `findall` matches on the
lowercased intent. Every keyword starts and ends with a word character, so
the boundary conditions reduce to: the previous character (if any) is not a
word character, and the character following the match (if any) is not a word
character. `findall` scans left to right, at each position trying the
alternatives in order and backtracking to the next alternative when the
trailing boundary fails, then resumes after the matched text. -/

/-- Trailing word-boundary check for a keyword match. -/
def boundaryOk (rest : List Char) : Bool :=
  match rest with
  | [] => true
  | c :: _ => !(isWordChar c)

/-- First alternative (in list order) matching at the current position with a
valid trailing boundary; returns its length. -/
def firstKwMatch : List (List Char) → List Char → Option ℕ
  | [], _ => none
  | kw :: kws, cs =>
    if kw.isPrefixOf cs && boundaryOk (cs.drop kw.length) then some kw.length
    else firstKwMatch kws cs

/-- Fuelled scan counting non-overlapping keyword matches; `prevW` records
whether the preceding character is a word character (leading boundary). -/
def scanCountF : ℕ → List (List Char) → Bool → List Char → ℕ
  | 0, _, _, _ => 0
  | _ + 1, _, _, [] => 0
  | fuel + 1, kws, prevW, c :: cs =>
    if prevW then scanCountF fuel kws (isWordChar c) cs
    else
      match firstKwMatch kws (c :: cs) with
      | some k => 1 + scanCountF fuel kws true (cs.drop (k - 1))
      | none => scanCountF fuel kws (isWordChar c) cs

/-- Number of `findall` matches of the keyword alternation on `cs`. -/
def scanCount (kws : List (List Char)) (cs : List Char) : ℕ :=
  scanCountF (cs.length + 1) kws false cs

/-- Model of `IntentProcessor.service_keywords`
(src/nlp/intent_processor.py lines 71-151), in dict insertion order. -/
def serviceKeywords : List (ServiceType × List String) :=
  [(ServiceType.GAMING,
    ["gaming", "game", "ar/vr", "vr", "ar", "augmented", "virtual",
     "interactive", "real-time gaming", "cloud gaming"]),
   (ServiceType.VIDEO,
    ["video", "streaming", "4k", "8k", "hd", "ultra-hd", "broadcast",
     "live stream", "media", "content delivery"]),
   (ServiceType.URLLC,
    ["ultra-low latency", "low latency", "critical", "real-time", "autonomous",
     "vehicle", "v2x", "industrial", "automation", "robotics", "surgery",
     "telemedicine"]),
   (ServiceType.EMBB,
    ["high bandwidth", "broadband", "high throughput", "capacity",
     "data intensive", "mobile broadband", "high speed"]),
   (ServiceType.VOICE,
    ["voice", "voip", "call", "telephony", "audio", "conference"]),
   (ServiceType.IOT,
    ["iot", "sensor", "monitoring", "smart city", "smart home", "telemetry",
     "metering", "tracking"]),
   (ServiceType.CRITICAL,
    ["mission critical", "emergency", "public safety", "first responder",
     "critical communication"]),
   (ServiceType.MMTC,
    ["massive iot", "massive connectivity", "machine type", "m2m",
     "sensor network"])]

/-- Per-type `findall` match counts, the `scores` dict of
`_fast_service_type_detection` in insertion order. -/
def serviceScores (cs : List Char) : List (ServiceType × ℕ) :=
  serviceKeywords.map fun p => (p.1, scanCount (p.2.map String.toList) cs)

/-- Python `max(scores.values())`. -/
def maxScore (l : List (ServiceType × ℕ)) : ℕ :=
  l.foldl (fun a p => max a p.2) 0

/-- Python `max(scores, key=lambda k: scores[k])`: first key (in insertion
order) attaining the maximal score. -/
def bestType (l : List (ServiceType × ℕ)) : ServiceType :=
  match l.find? fun p => p.2 = maxScore l with
  | some p => p.1
  | none => ServiceType.EMBB

/-- Model of `PerformanceIntentCache._fast_service_type_detection`
(src/nlp/intent_cache.py lines 171-187). -/
def fastServiceTypeDetection (intent : String) : ServiceType × ℚ :=
  let scores := serviceScores (pyLower intent.toList)
  if maxScore scores = 0 then (ServiceType.EMBB, 0.5)
  else (bestType scores, min ((maxScore scores : ℚ) / 3) 1)

/-! ## QoS extraction and merging -/

/-- The extracted-override dict of `_fast_qos_extraction`: only these three
keys can ever be set by it. -/
structure QosOverrides where
  max_latency_ms : Option ℚ
  min_throughput_mbps : Option ℚ
  reliability_percent : Option ℚ
deriving DecidableEq

/-- Model of `PerformanceIntentCache._fast_qos_extraction`
(src/nlp/intent_cache.py lines 189-225): first-match-wins over the latency
and throughput rule lists, hardcoded reliability phrase checks, confidence
`min(matches_found / 3, 1.0)`. Coincides with the source exactly when the
first latency match (if any) is a float-capturing row (1 or 2); when a
phrase row 3-5 is the first latency match the source raises `TypeError`
instead, because those rows carry non-callable floats (see `latencyRulesE`).
Theorems evaluate this function only on texts outside that error regime. -/
def fastQosExtraction (intent : String) : QosOverrides × ℚ :=
  let cs := pyLower intent.toList
  let lat := extractFirst latencyRules cs
  let thr := extractFirst throughputRules cs
  let rel :=
    if containsSub "ultra-reliable".toList cs || containsSub "5 nines".toList cs then
      some (99.999 : ℚ)
    else if containsSub "high reliability".toList cs then some (99.99 : ℚ)
    else none
  let mf : ℕ :=
    (if lat.isSome then 1 else 0) + (if thr.isSome then 1 else 0) +
    (if rel.isSome then 1 else 0)
  (⟨lat, thr, rel⟩, min ((mf : ℚ) / 3) 1)

/-- Model of `IntentProcessor._merge_qos_parameters`
(src/nlp/intent_processor.py lines 365-371): dict-update of the base profile
by the extracted overrides. -/
def mergeQosParameters (base : QoSParameters) (ext : QosOverrides) : QoSParameters :=
  { base with
    max_latency_ms := ext.max_latency_ms.getD base.max_latency_ms,
    min_throughput_mbps := ext.min_throughput_mbps.getD base.min_throughput_mbps,
    reliability_percent := ext.reliability_percent.getD base.reliability_percent }

/-! ## Placement hints (`IntentProcessor._extract_placement_hints`,
src/nlp/intent_processor.py lines 373-405) -/

/-- Matches `\s+` (at least one whitespace character, greedy). -/
def wsPlus (cs : List Char) : Option (List Char) :=
  match cs with
  | c :: r => if isPyWhitespace c then some (r.dropWhile isPyWhitespace) else none
  | [] => none

/-- Matcher for `in\s+(\w+)\s+region` anchored at the head, returning the
captured word. -/
def inRegionAt (cs : List Char) : Option String :=
  match lit "in".toList cs with
  | some r1 =>
    match wsPlus r1 with
    | some r2 =>
      let w := r2.takeWhile isWordChar
      if w = [] then none
      else
        match wsPlus (r2.dropWhile isWordChar) with
        | some r3 => if (lit "region".toList r3).isSome then some (String.mk w) else none
        | none => none
    | none => none
  | none => none

/-- Matcher for `at\s+(\w+)\s+site` anchored at the head. -/
def atSiteAt (cs : List Char) : Option String :=
  match lit "at".toList cs with
  | some r1 =>
    match wsPlus r1 with
    | some r2 =>
      let w := r2.takeWhile isWordChar
      if w = [] then none
      else
        match wsPlus (r2.dropWhile isWordChar) with
        | some r3 => if (lit "site".toList r3).isSome then some (String.mk w) else none
        | none => none
    | none => none
  | none => none

/-- Matcher for `near\s+(\w+)` anchored at the head. -/
def nearAt (cs : List Char) : Option String :=
  match lit "near".toList cs with
  | some r1 =>
    match wsPlus r1 with
    | some r2 =>
      let w := r2.takeWhile isWordChar
      if w = [] then none else some (String.mk w)
    | none => none
  | none => none

/-- Cloud-type hint: the three `any(word in intent ...)` checks. -/
def cloudTypeHint (cs : List Char) : Option (String × String) :=
  if ["edge", "near user", "close to user", "local"].any
      (fun w => containsSub w.toList cs) then some ("cloud_type", "edge")
  else if ["regional", "metro", "city"].any
      (fun w => containsSub w.toList cs) then some ("cloud_type", "regional")
  else if ["central", "core", "datacenter"].any
      (fun w => containsSub w.toList cs) then some ("cloud_type", "central")
  else none

/-- Affinity hint: the `isolated/dedicated` and `colocated/together` checks. -/
def affinityHint (cs : List Char) : Option (String × String) :=
  if containsSub "isolated".toList cs || containsSub "dedicated".toList cs then
    some ("affinity", "anti-affinity")
  else if containsSub "colocated".toList cs || containsSub "together".toList cs then
    some ("affinity", "affinity")
  else none

/-- Model of `IntentProcessor._extract_placement_hints` on lowercased text;
the hints dict in insertion order (all keys are distinct). -/
def extractPlacementHints (cs : List Char) : List (String × String) :=
  (cloudTypeHint cs).toList ++
  ((searchPos inRegionAt cs).map fun w => ("region", w)).toList ++
  ((searchPos atSiteAt cs).map fun w => ("site", w)).toList ++
  ((searchPos nearAt cs).map fun w => ("near", w)).toList ++
  (affinityHint cs).toList

/-- The intended computation of `PerformanceIntentCache._compute_and_cache`
(src/nlp/intent_cache.py lines 227-253): fast service type detection, base
QoS for the type, first-match QoS extraction merged over the base, placement
hints on the lowercased intent, confidence the average of the two
sub-confidences. The call sites at lines 235/239/242 name the processor
helpers `get_base_qos` / `merge_qos_parameters` / `extract_placement_hints`,
which exist on `IntentProcessor` only with a leading underscore; this
definition embeds those underscore-named source methods, while the dynamic
attribute-lookup failure of the call sites themselves is modelled separately
(see `intentProcessorMethodNames`). In the program this value is therefore
never produced (the first lookup raises, see `computeAndCacheReal`), and
theorems evaluate it only at intents whose first latency match, if any, is
the float-capturing rule 1 (see `latencyRules`). -/
def computeResult (intent : String) : IntentResult :=
  let td := fastServiceTypeDetection intent
  let ex := fastQosExtraction intent
  { original_intent := intent,
    service_type := td.1,
    qos_parameters := mergeQosParameters (getBaseQos td.1) ex.1,
    placement_hints := extractPlacementHints (pyLower intent.toList),
    confidence := (td.2 + ex.2) / 2 }

/-! ## Cache store (src/nlp/intent_cache.py)

`self.cache` is an `OrderedDict`; it is modelled as an association list in
order, front = least recently used / oldest, back = most recently used.
`self.lock` serializes every cache section, so each public operation is a
sequential state transition. `time.time()` is the explicit parameter `now`;
the measured wall-clock duration of a computation is the parameter `ptime`. -/

/-- Model of the `CacheEntry` dataclass (src/nlp/intent_cache.py lines 20-31). -/
structure CacheEntry where
  result : IntentResult
  timestamp : ℚ
  hit_count : ℕ
  processing_time : ℚ
deriving DecidableEq

/-- Model of `CacheEntry.is_expired`: `time.time() - self.timestamp > ttl`. -/
def CacheEntry.is_expired (e : CacheEntry) (ttl now : ℚ) : Bool :=
  decide (ttl < now - e.timestamp)

/-- The `self.stats` counter dict (src/nlp/intent_cache.py lines 55-61). -/
structure CacheStats where
  hits : ℕ
  misses : ℕ
  evictions : ℕ
  precomputed : ℕ
  total_processing_time : ℚ
deriving DecidableEq

/-- State of a `PerformanceIntentCache` instance: configuration, ordered
key-entry map, counters. -/
structure CacheState where
  max_size : ℕ
  ttl : ℚ
  cache : List (String × CacheEntry)
  stats : CacheStats
deriving DecidableEq

/-- State right after `__init__` with `precompute_common=False`
(src/nlp/intent_cache.py lines 37-68): empty map, zeroed counters. -/
def initState (max_size : ℕ) (ttl : ℚ) : CacheState :=
  ⟨max_size, ttl, [], ⟨0, 0, 0, 0, 0⟩⟩

/-- Ordered-dict key lookup (`cache_key in self.cache` / `self.cache[k]`). -/
def lookupEntry : List (String × CacheEntry) → String → Option CacheEntry
  | [], _ => none
  | (k, e) :: rest, key => if k = key then some e else lookupEntry rest key

/-- Ordered-dict deletion (`del self.cache[k]`). -/
def removeKey : List (String × CacheEntry) → String → List (String × CacheEntry)
  | [], _ => []
  | (k, e) :: rest, key =>
    if k = key then removeKey rest key else (k, e) :: removeKey rest key

/-- Ordered-dict assignment `self.cache[key] = e`: replace in place if the
key is present, otherwise append at the most-recently-used end. -/
def insertOD : List (String × CacheEntry) → String → CacheEntry → List (String × CacheEntry)
  | [], key, e => [(key, e)]
  | (k, e0) :: rest, key, e =>
    if k = key then (k, e) :: rest else (k, e0) :: insertOD rest key e

/-- The `while len(self.cache) > self.max_size: self.cache.popitem(last=False)`
loop of `_evict_if_needed` (src/nlp/intent_cache.py lines 272-276), with
explicit fuel; returns the remaining map and the number of evictions. -/
def evictLoop : ℕ → List (String × CacheEntry) → ℕ → List (String × CacheEntry) × ℕ
  | 0, c, _ => (c, 0)
  | fuel + 1, c, m =>
    if m < c.length then
      let r := evictLoop fuel c.tail m
      (r.1, r.2 + 1)
    else (c, 0)

/-- Model of `_evict_if_needed`; fuel `c.length` always suffices for the
while loop to terminate below the bound. -/
def evictIfNeeded (c : List (String × CacheEntry)) (m : ℕ) : List (String × CacheEntry) × ℕ :=
  evictLoop c.length c m

/-- Body of `PerformanceIntentCache._compute_and_cache`
(src/nlp/intent_cache.py lines 227-270) downstream of the processor
attribute lookups, with the result computation abstracted as `f`: compute
the result, and unless `precompute` is set, insert it under the fingerprint
of the intent and enforce the capacity bound; always add the measured
computation time to `total_processing_time`. In the source this body is
unreachable: the attribute lookup at line 235 raises first, so this
function occurs only as the never-taken ok-branch of `computeAndCacheReal`
and the insertion and eviction it describes are dead code in the program. -/
def computeAndCacheWith (sha : String → String) (f : String → IntentResult)
    (now ptime : ℚ) (precompute : Bool) (st : CacheState) (intent : String) :
    IntentResult × CacheState :=
  let result := f intent
  let st1 :=
    if precompute then st
    else
      let key := computeHash sha intent
      let c1 := insertOD st.cache key ⟨result, now, 0, ptime⟩
      let ev := evictIfNeeded c1 st.max_size
      { st with cache := ev.1,
                stats := { st.stats with evictions := st.stats.evictions + ev.2 } }
  (result,
   { st1 with stats := { st1.stats with
       total_processing_time := st1.stats.total_processing_time + ptime } })

/-! ## The faithful miss path

`_compute_and_cache` evaluates `self.processor.get_base_qos(...)`,
`self.processor.merge_qos_parameters(...)` and
`self.processor.extract_placement_hints(...)` (src/nlp/intent_cache.py lines
235, 239, 242). `self.processor` is an `IntentProcessor`
(src/nlp/intent_processor.py), whose attribute names are listed below; the
three names above are not among them (the corresponding methods carry a
leading underscore), so the first of these attribute accesses raises
`AttributeError` before any result is produced or cached. -/

/-- Python exception values relevant to the exception handlers of the cache
module. -/
inductive PyErr where
  | attributeError (name : String)
  | valueError (msg : String)
  | runtimeError (msg : String)
  | keyError (msg : String)
  | typeError (msg : String)
deriving DecidableEq

/-- The attribute names defined on `IntentProcessor` instances
(src/nlp/intent_processor.py lines 65-405): the three instance dicts and
the methods, transcribed from the class body. -/
def intentProcessorMethodNames : List String :=
  ["service_keywords", "qos_patterns", "default_qos",
   "process_intent", "_detect_service_type", "_extract_qos_requirements",
   "_get_base_qos", "_merge_qos_parameters", "_extract_placement_hints"]

/-- First-match-wins evaluation over rules whose extractor call is made
explicit (may raise), mirroring `extractFirst`. -/
def extractFirstE : List (List Char → Option (Except PyErr ℚ)) → List Char →
    Option (Except PyErr ℚ)
  | [], _ => none
  | r :: rs, cs =>
    match r cs with
    | some v => some v
    | none => extractFirstE rs cs

/-- The latency rule rows with the extractor CALL modelled faithfully: rows
1-2 pair single-group patterns with callable float conversions, so a match
yields the captured value; rows 3-5 pair groupless patterns with the plain
(non-callable) floats 10.0 / 20.0 / 50.0 (src/nlp/intent_cache.py lines
84-86), so a match makes `_fast_qos_extraction` execute `extractor()` on a
float and raise `TypeError` (line 201). -/
def latencyRulesE : List (List Char → Option (Except PyErr ℚ)) :=
  [fun cs => (searchPos lat1At cs).map Except.ok,
   fun cs => (searchPos lat2At cs).map Except.ok,
   fun cs => (searchPos lat3At cs).map
     fun _ => Except.error (PyErr.typeError "float object is not callable"),
   fun cs => (searchPos (phraseAt "low" "latency" 20) cs).map
     fun _ => Except.error (PyErr.typeError "float object is not callable"),
   fun cs => (searchPos (phraseAt "moderate" "latency" 50) cs).map
     fun _ => Except.error (PyErr.typeError "float object is not callable")]

/-- Faithful model of `_compute_and_cache`: the body first runs
`_fast_service_type_detection`, then evaluates the attribute
`self.processor.get_base_qos`; when that name resolves the computation is
`computeAndCacheWith` applied to `computeResult`, and when it does not (the
actual situation in the source) the call raises `AttributeError` with the
cache untouched by this function (the miss counter was already bumped by the
caller). -/
def computeAndCacheReal (sha : String → String) (now ptime : ℚ) (precompute : Bool)
    (st : CacheState) (intent : String) : Except PyErr (IntentResult × CacheState) :=
  if "get_base_qos" ∈ intentProcessorMethodNames then
    Except.ok (computeAndCacheWith sha computeResult now ptime precompute st intent)
  else
    Except.error (PyErr.attributeError "get_base_qos")

/-- Faithful model of `process_intent`: as `processIntentWith`, but the miss
path computes via `computeAndCacheReal`; when the computation raises, the
exception propagates while the miss-counter increment (performed under the
lock before computing) persists. -/
def processIntentRealAt (sha : String → String) (now ptime : ℚ)
    (st : CacheState) (intent : String) : Except PyErr IntentResult × CacheState :=
  let key := computeHash sha intent
  match lookupEntry st.cache key with
  | some e =>
    if e.is_expired st.ttl now = false then
      (Except.ok e.result,
       { st with
           cache := removeKey st.cache key ++ [(key, { e with hit_count := e.hit_count + 1 })],
           stats := { st.stats with hits := st.stats.hits + 1 } })
    else
      let st1 := { st with cache := removeKey st.cache key,
                           stats := { st.stats with misses := st.stats.misses + 1 } }
      match computeAndCacheReal sha now ptime false st1 intent with
      | Except.ok (r, st2) => (Except.ok r, st2)
      | Except.error err => (Except.error err, st1)
  | none =>
    let st1 := { st with stats := { st.stats with misses := st.stats.misses + 1 } }
    match computeAndCacheReal sha now ptime false st1 intent with
    | Except.ok (r, st2) => (Except.ok r, st2)
    | Except.error err => (Except.error err, st1)

/-- The exception classes caught per item by `batch_process`
(src/nlp/intent_cache.py line 338): `except (ValueError, RuntimeError)`. -/
def catchableInBatch : PyErr → Bool
  | PyErr.valueError _ => true
  | PyErr.runtimeError _ => true
  | _ => false

/-- The per-item substitute built by `batch_process` on a caught failure
(src/nlp/intent_cache.py lines 341-347): default category, baseline EMBB
profile, no hints, confidence 0. -/
def defaultErrorResult (intent : String) : IntentResult :=
  { original_intent := intent,
    service_type := ServiceType.EMBB,
    qos_parameters := defaultQos ServiceType.EMBB,
    placement_hints := [],
    confidence := 0 }

/-- Faithful model of `PerformanceIntentCache.batch_process`
(src/nlp/intent_cache.py lines 311-349): results are collected keyed by the
original index (modelled by the list position); a per-item `ValueError` or
`RuntimeError` is replaced by the default result, any other exception
propagates out of `future.result()` and aborts the whole call. -/
def batchProcessRealAt (sha : String → String) (now ptime : ℚ) :
    CacheState → List String → Except PyErr (List IntentResult × CacheState)
  | st, [] => Except.ok ([], st)
  | st, intent :: rest =>
    match processIntentRealAt sha now ptime st intent with
    | (Except.ok r, st1) =>
      (batchProcessRealAt sha now ptime st1 rest).map fun p => (r :: p.1, p.2)
    | (Except.error err, st1) =>
      if catchableInBatch err then
        (batchProcessRealAt sha now ptime st1 rest).map
          fun p => (defaultErrorResult intent :: p.1, p.2)
      else Except.error err

/-- The fixed intent list of `_precompute_common_intents`
(src/nlp/intent_cache.py lines 114-139). -/
def commonIntents : List String :=
  ["Create a low-latency network slice for AR/VR gaming with guaranteed 10ms latency",
   "Gaming service requiring less than 6.3ms latency and 1 Mbps throughput",
   "Ultra-low latency gaming slice with 5ms latency",
   "I need a high bandwidth slice for 4K video streaming with at least 25 Mbps",
   "High bandwidth video streaming tolerating up to 20ms latency with 4.57 Mbps",
   "Video streaming service with 10 Mbps bandwidth",
   "Deploy ultra-reliable slice for autonomous vehicles with 5 nines reliability",
   "Ultra-low latency slice for critical applications with 1ms latency",
   "Mission critical communication for emergency services",
   "Set up IoT monitoring with low bandwidth requirements at the edge",
   "Massive IoT connectivity for smart city sensors",
   "IoT slice with low power requirements",
   "High bandwidth mobile broadband with 100 Mbps",
   "Enhanced mobile broadband for dense urban areas",
   "Mobile broadband slice with high capacity",
   "High bandwidth video streaming tolerating up to 20ms latency with 4.57 Mbps",
   "Gaming service requiring less than 6.3ms latency and 0.93 Mbps throughput",
   "IoT monitoring with 2.77 Mbps bandwidth and 15.7ms latency tolerance"]

/-- The exception classes caught per pre-computed item by
`_precompute_common_intents` (src/nlp/intent_cache.py line 155):
`except (ValueError, KeyError, TypeError)`. `AttributeError` is absent. -/
def catchableInPrecompute : PyErr → Bool
  | PyErr.valueError _ => true
  | PyErr.keyError _ => true
  | PyErr.typeError _ => true
  | _ => false

/-- Faithful model of `_precompute_common_intents` (src/nlp/intent_cache.py
lines 112-161): each listed intent is computed via
`_compute_and_cache(intent, precompute=True)` in a bounded worker pool
(completion serialized here); a completed computation increments
`stats["precomputed"]`; a `ValueError`, `KeyError` or `TypeError` is logged
and skipped; any other exception re-raised by `future.result()` propagates
and aborts the warm-up — and, since `__init__` runs it by default, the
construction of the cache itself. -/
def precomputeIntentsReal (sha : String → String) (now ptime : ℚ) :
    CacheState → List String → Except PyErr CacheState
  | st, [] => Except.ok st
  | st, intent :: rest =>
    match computeAndCacheReal sha now ptime true st intent with
    | Except.ok (_, st1) =>
      precomputeIntentsReal sha now ptime
        { st1 with stats := { st1.stats with
            precomputed := st1.stats.precomputed + 1 } } rest
    | Except.error err =>
      if catchableInPrecompute err then precomputeIntentsReal sha now ptime st rest
      else Except.error err

/-- The snapshot returned by `get_statistics`
(src/nlp/intent_cache.py lines 369-391). -/
structure StatsView where
  cache_size : ℕ
  max_size : ℕ
  hit_rate : ℚ
  total_requests : ℕ
  hits : ℕ
  misses : ℕ
  evictions : ℕ
  precomputed : ℕ
  avg_processing_time_ms : ℚ
deriving DecidableEq

/-- Model of `PerformanceIntentCache.get_statistics`: both derived metrics
are guarded (`if total_requests > 0`, `if self.stats["misses"] > 0`),
falling back to 0. -/
def getStatistics (st : CacheState) : StatsView :=
  let total_requests := st.stats.hits + st.stats.misses
  let hit_rate : ℚ :=
    if 0 < total_requests then (st.stats.hits : ℚ) / (total_requests : ℚ) else 0
  let avg_processing_time : ℚ :=
    if 0 < st.stats.misses then st.stats.total_processing_time / (st.stats.misses : ℚ)
    else 0
  { cache_size := st.cache.length,
    max_size := st.max_size,
    hit_rate := hit_rate,
    total_requests := total_requests,
    hits := st.stats.hits,
    misses := st.stats.misses,
    evictions := st.stats.evictions,
    precomputed := st.stats.precomputed,
    avg_processing_time_ms := avg_processing_time * 1000 }

/-! ## Intent validation (src/nlp/intent_parser.py) -/

/-- Exception kinds raised by `IntentParser.parse` validation. -/
inductive ParseErr where
  | valueError (msg : String)
  | validationError (msg : String)
deriving DecidableEq

/-- Model of the validation prefix of `IntentParser.parse`
(src/nlp/intent_parser.py lines 133-150), which runs before anything else in
`parse`: empty or blank text raises `ValueError`; stripped length at least
1000 raises `IntentValidationError`; text whose characters are all ASCII
punctuation, digits or whitespace raises `IntentValidationError`. The
result is the exception `parse` raises at this stage, if any. -/
def parseValidate (intent : String) : Option ParseErr :=
  let cs := intent.toList
  if cs = [] ∨ pyStrip cs = [] then some (ParseErr.valueError "Intent cannot be empty")
  else if 1000 ≤ (pyStrip cs).length then
    some (ParseErr.validationError "Intent text too long (max 999 characters)")
  else if cs.all (fun c => isPyPunct c || c.isDigit || isPyWhitespace c) then
    some (ParseErr.validationError "Intent must contain alphabetic characters")
  else none

/-! ## Lemmas about the cache operations -/

/-- Deleting a key never grows the map. -/
theorem removeKey_length_le (l : List (String × CacheEntry)) (k : String) :
    (removeKey l k).length ≤ l.length := by
  induction l with
  | nil => simp [removeKey]
  | cons p rest ih =>
    by_cases hp : p.1 = k
    · simp only [removeKey, if_pos hp]
      have h2 : (p :: rest).length = rest.length + 1 := rfl
      omega
    · simp only [removeKey, if_neg hp, List.length_cons]; omega

/-- Deleting a present key strictly shrinks the map. -/
theorem removeKey_length_lt (l : List (String × CacheEntry)) (k : String)
    (h : (lookupEntry l k).isSome) : (removeKey l k).length < l.length := by
  induction l with
  | nil => simp [lookupEntry] at h
  | cons p rest ih =>
    by_cases hp : p.1 = k
    · simp only [removeKey, if_pos hp]
      have h1 := removeKey_length_le rest k
      have h2 : (p :: rest).length = rest.length + 1 := rfl
      omega
    · simp only [lookupEntry, if_neg hp] at h
      simp only [removeKey, if_neg hp, List.length_cons]
      exact Nat.succ_lt_succ (ih h)

/-- Deleting a key removes every binding for it. -/
theorem lookupEntry_removeKey (l : List (String × CacheEntry)) (k : String) :
    lookupEntry (removeKey l k) k = none := by
  induction l with
  | nil => rfl
  | cons p rest ih =>
    by_cases hp : p.1 = k
    · simp only [removeKey, if_pos hp]
      exact ih
    · simp only [removeKey, if_neg hp, lookupEntry]
      exact ih

/- The Batteries rational-number operations are `@[irreducible]`; closed
computations below are checked by `decide`, which needs them to unfold. -/
attribute [local semireducible] Rat.add Rat.sub Rat.mul Rat.inv Rat.ofScientific

/-! ## Claim theorems -/

/-- The latency phrase rows carry non-callable floats: whenever one of them
is the first latency match — as for "lowlatency", matched by row 4
(`low\s*latency`) — the extraction raises `TypeError` at the `extractor()`
call instead of producing the paired value. -/
theorem latency_phrase_rules_raise :
    extractFirstE latencyRulesE (pyLower ("lowlatency").toList) =
      some (Except.error (PyErr.typeError "float object is not callable")) := rfl

/-- C4: the claim is unrealizable in the program. First part: a real
`process_intent` transition never increases the number of cached entries —
the miss path raises before the insertion, a live hit reorders in place,
and an expired access only deletes — so an initially empty cache stays
empty and the size bound holds only vacuously. Second part: running the
claim's own maxSize = 2 scenario (insert alpha, insert bravo, access alpha,
insert charlie) through the faithful semantics leaves the cache empty with
four misses, no hits and no evictions, each step returning the miss-path
`AttributeError`: bravo is never evicted because nothing is ever inserted,
and neither alpha nor charlie is retrievable. -/
theorem c4_cache_never_grows :
    (∀ (sha : String → String) (now ptime : ℚ) (st : CacheState) (intent : String),
       ((processIntentRealAt sha now ptime st intent).2).cache.length ≤ st.cache.length)
    ∧
    (let step := fun (st : CacheState) (intent : String) =>
       (processIntentRealAt (fun s => s) 0 0 st intent).2
     let st4 := step (step (step (step (initState 2 3600) "alpha") "bravo") "alpha") "charlie"
     st4.cache = [] ∧
     st4.stats.misses = 4 ∧
     st4.stats.hits = 0 ∧
     st4.stats.evictions = 0 ∧
     lookupEntry st4.cache "alpha" = none ∧
     lookupEntry st4.cache "charlie" = none ∧
     (processIntentRealAt (fun s => s) 0 0 (initState 2 3600) "alpha").1 =
       Except.error (PyErr.attributeError "get_base_qos")) := by
  constructor
  · intro sha now ptime st intent
    have hm : ¬ ("get_base_qos" ∈ intentProcessorMethodNames) := by decide
    cases hl : lookupEntry st.cache (computeHash sha intent) with
    | none =>
      have hc : ((processIntentRealAt sha now ptime st intent).2).cache = st.cache := by
        simp only [processIntentRealAt, hl, computeAndCacheReal, if_neg hm]
      rw [hc]
    | some e =>
      by_cases hexp : e.is_expired st.ttl now = false
      · simp only [processIntentRealAt, hl, if_pos hexp]
        have h1 := removeKey_length_lt st.cache (computeHash sha intent) (by simp [hl])
        simp only [List.length_append, List.length_cons, List.length_nil]
        omega
      · have hc : ((processIntentRealAt sha now ptime st intent).2).cache
            = removeKey st.cache (computeHash sha intent) := by
          simp only [processIntentRealAt, hl, if_neg hexp, computeAndCacheReal, if_neg hm]
        rw [hc]
        exact removeKey_length_le _ _
  · exact ⟨rfl, rfl, rfl, rfl, rfl, rfl, rfl⟩

/-- C5: one half of the claim holds, the other fails on the code. A hit —
the only way the hit counter moves and a stored result is returned — only
ever serves an entry whose age is at most the TTL, and expiry is evaluated
only inside the access operation itself (the model has no other
transition). But on access to an expired entry the code removes the stale
entry and records a miss, then raises the miss-path `AttributeError`: NO
freshly computed entry replaces the old one, the key is left absent. (In
the unmodified program no entry can even exist to expire, since nothing is
ever inserted; see C4.) -/
theorem c5_expired_removed_not_replaced :
    (∀ (sha : String → String) (now ptime : ℚ) (st : CacheState) (intent : String)
       (e : CacheEntry),
       lookupEntry st.cache (computeHash sha intent) = some e →
       st.ttl < now - e.timestamp →
       ((processIntentRealAt sha now ptime st intent).2).stats.misses = st.stats.misses + 1 ∧
       ((processIntentRealAt sha now ptime st intent).2).stats.hits = st.stats.hits ∧
       lookupEntry ((processIntentRealAt sha now ptime st intent).2).cache
         (computeHash sha intent) = none ∧
       (processIntentRealAt sha now ptime st intent).1 =
         Except.error (PyErr.attributeError "get_base_qos"))
    ∧
    (∀ (sha : String → String) (now ptime : ℚ) (st : CacheState) (intent : String),
       ((processIntentRealAt sha now ptime st intent).2).stats.hits ≠ st.stats.hits →
       ∃ e, lookupEntry st.cache (computeHash sha intent) = some e ∧
         now - e.timestamp ≤ st.ttl ∧
         (processIntentRealAt sha now ptime st intent).1 = Except.ok e.result) := by
  constructor
  · intro sha now ptime st intent e hl hexp
    have hm : ¬ ("get_base_qos" ∈ intentProcessorMethodNames) := by decide
    have hexpb : e.is_expired st.ttl now = true := by
      simpa [CacheEntry.is_expired] using hexp
    have hne : ¬ (e.is_expired st.ttl now = false) := by simp [hexpb]
    refine ⟨?_, ?_, ?_, ?_⟩
    · simp only [processIntentRealAt, hl, if_neg hne, computeAndCacheReal, if_neg hm]
    · simp only [processIntentRealAt, hl, if_neg hne, computeAndCacheReal, if_neg hm]
    · have hc : ((processIntentRealAt sha now ptime st intent).2).cache
          = removeKey st.cache (computeHash sha intent) := by
        simp only [processIntentRealAt, hl, if_neg hne, computeAndCacheReal, if_neg hm]
      rw [hc]
      exact lookupEntry_removeKey _ _
    · simp only [processIntentRealAt, hl, if_neg hne, computeAndCacheReal, if_neg hm]
  · intro sha now ptime st intent hne
    have hm : ¬ ("get_base_qos" ∈ intentProcessorMethodNames) := by decide
    cases hl : lookupEntry st.cache (computeHash sha intent) with
    | none =>
      exfalso
      apply hne
      simp only [processIntentRealAt, hl, computeAndCacheReal, if_neg hm]
    | some e =>
      by_cases hexp : e.is_expired st.ttl now = false
      · refine ⟨e, rfl, ?_, ?_⟩
        · have hn : ¬ (st.ttl < now - e.timestamp) := by
            simpa [CacheEntry.is_expired] using hexp
          exact le_of_not_lt hn
        · simp only [processIntentRealAt, hl, if_pos hexp]
      · exfalso
        apply hne
        simp only [processIntentRealAt, hl, if_neg hexp, computeAndCacheReal, if_neg hm]

/-- Witness for C5: a concrete expired entry (timestamp 0, TTL 1, accessed
at time 5): the miss is recorded and the key is left absent. -/
theorem c5_witness :
    (lookupEntry (⟨10, 1, [("k", ⟨defaultErrorResult "x", 0, 0, 0⟩)], ⟨0, 0, 0, 0, 0⟩⟩ :
        CacheState).cache (computeHash (fun _ => "k") "x") =
      some ⟨defaultErrorResult "x", 0, 0, 0⟩) ∧
    ((processIntentRealAt (fun _ => "k") 5 0
        (⟨10, 1, [("k", ⟨defaultErrorResult "x", 0, 0, 0⟩)], ⟨0, 0, 0, 0, 0⟩⟩ : CacheState)
        "x").2).stats.misses = 0 + 1 :=
  ⟨by decide,
   (c5_expired_removed_not_replaced.1 (fun _ => "k") 5 0
      (⟨10, 1, [("k", ⟨defaultErrorResult "x", 0, 0, 0⟩)], ⟨0, 0, 0, 0, 0⟩⟩ : CacheState)
      "x" ⟨defaultErrorResult "x", 0, 0, 0⟩ (by decide) (by decide)).1⟩

/-- C6: the fingerprint is a pure deterministic function of the normalized
text (lowercase, trim, collapse internal whitespace runs): whenever two
strings normalize equally their fingerprints agree, for any digest function;
in particular " Foo Bar " and "foo bar" map to the same cache key. -/
theorem c6_fingerprint_normalization :
    (∀ (sha : String → String) (a b : String),
       pyNormalize a = pyNormalize b → computeHash sha a = computeHash sha b)
    ∧ (∀ sha : String → String, computeHash sha " Foo Bar " = computeHash sha "foo bar") := by
  constructor
  · intro sha a b h
    unfold computeHash
    rw [h]
  · intro sha
    unfold computeHash
    rw [show pyNormalize " Foo Bar " = pyNormalize "foo bar" from by decide]

/-- Witness for C6: the normalization hypothesis holds for the concrete pair
and the fingerprints agree (digest instantiated with the identity). -/
theorem c6_witness :
    pyNormalize " Foo Bar " = pyNormalize "foo bar" ∧
    computeHash (fun s => s) " Foo Bar " = computeHash (fun s => s) "foo bar" :=
  ⟨by decide, c6_fingerprint_normalization.1 (fun s => s) " Foo Bar " "foo bar" (by decide)⟩

/-- C7 counterexample: processing "zzz qqq flub" does not yield any
ClassificationResult at all, let alone one with confidence 0.5: the miss
path records the miss and then raises `AttributeError`, leaving the cache
empty. -/
theorem c7_counterexample :
    (processIntentRealAt (fun s => s) 0 0 (initState 10000 3600) "zzz qqq flub").1 =
      Except.error (PyErr.attributeError "get_base_qos") ∧
    ((processIntentRealAt (fun s => s) 0 0 (initState 10000 3600) "zzz qqq flub").2).stats.misses = 1 ∧
    ((processIntentRealAt (fun s => s) 0 0 (initState 10000 3600) "zzz qqq flub").2).cache = [] :=
  ⟨rfl, rfl, rfl⟩

/-- C7 amended: for every intent with all category scores zero, the
classifier stage `_fast_service_type_detection` — which the code does run
to completion, before the failure — returns the default category EMBB with
classifier confidence exactly 0.5; processing then raises the miss-path
`AttributeError` (for any digest and any cache state missing the key), so
no ClassificationResult carrying any confidence is produced. -/
theorem c7_amended_default_category :
    ∀ intent : String,
      maxScore (serviceScores (pyLower intent.toList)) = 0 →
      fastServiceTypeDetection intent = (ServiceType.EMBB, 1 / 2) ∧
      (∀ (sha : String → String) (now ptime : ℚ) (st : CacheState),
         lookupEntry st.cache (computeHash sha intent) = none →
         (processIntentRealAt sha now ptime st intent).1 =
           Except.error (PyErr.attributeError "get_base_qos")) := by
  intro intent h
  constructor
  · simp only [fastServiceTypeDetection, h, if_pos]
    refine Prod.ext rfl ?_
    norm_num
  · intro sha now ptime st hl
    have hm : ¬ ("get_base_qos" ∈ intentProcessorMethodNames) := by decide
    simp only [processIntentRealAt, hl, computeAndCacheReal, if_neg hm]

/-- Witness for C7: the amended statement applied at "zzz qqq flub". -/
theorem c7_witness :
    maxScore (serviceScores (pyLower ("zzz qqq flub").toList)) = 0 ∧
    fastServiceTypeDetection "zzz qqq flub" = (ServiceType.EMBB, 1 / 2) :=
  ⟨by decide, (c7_amended_default_category "zzz qqq flub" (by decide)).1⟩

/-- C8: QoS extraction is first-match-wins over each ordered rule list (a
rule preceded only by non-matching rules determines the result, and the
rules after it are never consulted); the gigabit rule multiplies the
captured number by 1000 (2.5 Gbps normalizes to 2500 Mbps); the "N nines"
reliability extractor equals 100 - 10^(-N)*100 = 100 - 100/10^N percent for
every N; and the intent "Gaming service requiring less than 6.3ms latency
and 0.93 Mbps throughput" yields max latency exactly 6.3 ms and min
throughput exactly 0.93 Mbps, overriding the GAMING baseline of 10 ms and
5 Mbps. -/
theorem c8_extraction_rules :
    (∀ (pre post post2 : List (List Char → Option ℚ)) (r : List Char → Option ℚ)
       (cs : List Char) (v : ℚ),
       (∀ p ∈ pre, p cs = none) → r cs = some v →
       extractFirst (pre ++ r :: post) cs = some v ∧
       extractFirst (pre ++ r :: post) cs = extractFirst (pre ++ r :: post2) cs)
    ∧ (∀ n : ℕ, ninesExtract n = 100 - 100 / 10 ^ n)
    ∧ extractFirst throughputRules (pyLower "Video link at 2.5 Gbps".toList) = some 2500
    ∧ (computeResult "Gaming service requiring less than 6.3ms latency and 0.93 Mbps throughput").qos_parameters.max_latency_ms = 6.3
    ∧ (computeResult "Gaming service requiring less than 6.3ms latency and 0.93 Mbps throughput").qos_parameters.min_throughput_mbps = 0.93
    ∧ (getBaseQos (computeResult "Gaming service requiring less than 6.3ms latency and 0.93 Mbps throughput").service_type).max_latency_ms = 10
    ∧ (getBaseQos (computeResult "Gaming service requiring less than 6.3ms latency and 0.93 Mbps throughput").service_type).min_throughput_mbps = 5 := by
  refine ⟨?_, ?_, by decide, by decide, by decide, by decide, by decide⟩
  · intro pre post post2 r cs v
    induction pre with
    | nil =>
      intro _ hr
      constructor
      · simp [extractFirst, hr]
      · simp [extractFirst, hr]
    | cons p ps ih =>
      intro hpre hr
      have hp : p cs = none := hpre p (by simp)
      have hs : ∀ q ∈ ps, q cs = none := fun q hq => hpre q (by simp [hq])
      have := ih hs hr
      constructor
      · simpa [extractFirst, hp] using this.1
      · simpa [extractFirst, hp] using this.2
  · intro n
    unfold ninesExtract
    rw [zpow_neg, zpow_natCast]
    ring

/-- Witness for C8: the first-match-wins part applied with an empty prefix,
the first latency rule and the concrete text "5ms latency". -/
theorem c8_witness :
    searchPos lat1At (pyLower ("5ms latency").toList) = some 5 ∧
    extractFirst ([] ++ searchPos lat1At :: latencyRules.tail)
      (pyLower ("5ms latency").toList) = some 5 :=
  ⟨by decide,
   (c8_extraction_rules.1 [] latencyRules.tail latencyRules.tail (searchPos lat1At)
      (pyLower ("5ms latency").toList) 5 (by simp) (by decide)).1⟩

/-- C10: the two derived metrics of get_statistics are guarded: with no
requests the hit rate reports 0 instead of dividing by zero, and with no
misses the average processing time reports 0 instead of dividing by zero. -/
theorem c10_statistics_guarded :
    ∀ st : CacheState,
      (st.stats.hits + st.stats.misses = 0 → (getStatistics st).hit_rate = 0) ∧
      (st.stats.misses = 0 → (getStatistics st).avg_processing_time_ms = 0) := by
  intro st
  constructor
  · intro h
    simp [getStatistics, h]
  · intro h
    simp [getStatistics, h]

/-- Witness for C10: the guards applied at the freshly initialized state. -/
theorem c10_witness :
    (initState 4 1).stats.hits + (initState 4 1).stats.misses = 0 ∧
    (getStatistics (initState 4 1)).hit_rate = 0 :=
  ⟨rfl, (c10_statistics_guarded (initState 4 1)).1 rfl⟩

/-- C1: contrary to the claim, the miss path never terminates normally: for
every intent whose fingerprint misses the cache, `process_intent` records
the miss and then raises `AttributeError` because the call site names
`get_base_qos`, which is not an attribute of `IntentProcessor` (the helper
is `_get_base_qos`); no result is returned and no entry is inserted, while
the miss counter update persists. -/
theorem c1_miss_path_attribute_error :
    ∀ (sha : String → String) (now ptime : ℚ) (st : CacheState) (intent : String),
      lookupEntry st.cache (computeHash sha intent) = none →
      processIntentRealAt sha now ptime st intent =
        (Except.error (PyErr.attributeError "get_base_qos"),
         { st with stats := { st.stats with misses := st.stats.misses + 1 } }) := by
  intro sha now ptime st intent h
  have hm : ¬ ("get_base_qos" ∈ intentProcessorMethodNames) := by decide
  simp only [processIntentRealAt, h, computeAndCacheReal, if_neg hm]

/-- Witness for C1: the failing call on the empty cache with a concrete valid
intent from the repository itself. -/
theorem c1_witness :
    lookupEntry (initState 10000 3600).cache
      (computeHash (fun s => s) "Mission critical communication for emergency services") = none ∧
    processIntentRealAt (fun s => s) 0 0 (initState 10000 3600)
        "Mission critical communication for emergency services" =
      (Except.error (PyErr.attributeError "get_base_qos"),
       { initState 10000 3600 with stats := { (initState 10000 3600).stats with
           misses := (initState 10000 3600).stats.misses + 1 } }) :=
  ⟨rfl,
   c1_miss_path_attribute_error (fun s => s) 0 0 (initState 10000 3600)
     "Mission critical communication for emergency services" rfl⟩

/-- C2 counterexample: processing the empty intent through the cache does not
raise any validation error before cache interaction; it performs the lookup,
updates the miss counter, and then fails with the `AttributeError` of the
miss path. The validation the claim describes lives in `IntentParser.parse`,
which the cache never calls. -/
theorem c2_counterexample :
    (processIntentRealAt (fun s => s) 0 0 (initState 10000 3600) "").1 =
      Except.error (PyErr.attributeError "get_base_qos") ∧
    ((processIntentRealAt (fun s => s) 0 0 (initState 10000 3600) "").2).stats.misses = 1 :=
  ⟨rfl, rfl⟩

set_option maxRecDepth 8000 in
/-- C2 amended: the input validation is implemented by `IntentParser.parse`
(a component with no cache), whose validation prefix rejects empty or blank
text, text of stripped length at least 1000, and text all of whose
characters are ASCII punctuation, digits or whitespace; in particular ""
and 1000 repeated a-characters are rejected. `PerformanceIntentCache`
performs no such validation, so these inputs do reach its cache machinery
(see the counterexample). -/
theorem c2_amended_parse_validation :
    (parseValidate "").isSome ∧
    (parseValidate (String.mk (List.replicate 1000 'a'))).isSome ∧
    (∀ s : String, pyStrip s.toList = [] → (parseValidate s).isSome) ∧
    (∀ s : String, 1000 ≤ (pyStrip s.toList).length → (parseValidate s).isSome) ∧
    (∀ s : String,
       s.toList.all (fun c => isPyPunct c || c.isDigit || isPyWhitespace c) = true →
       (parseValidate s).isSome) := by
  refine ⟨by decide, by decide, ?_, ?_, ?_⟩
  · intro s h
    have h2 : pyStrip s.data = [] := h
    simp [parseValidate, h2]
  · intro s h
    simp only [parseValidate]
    split_ifs <;> simp_all
  · intro s h
    simp only [parseValidate]
    split_ifs <;> simp_all

/-- Witness for C2: the all-punctuation-or-digit condition holds for "123:"
and parse rejects it. -/
theorem c2_witness :
    ("123:").toList.all (fun c => isPyPunct c || c.isDigit || isPyWhitespace c) = true ∧
    (parseValidate "123:").isSome :=
  ⟨by decide, c2_amended_parse_validation.2.2.2.2 "123:" (by decide)⟩

/-- C3 counterexample: warming with the fixed common-intent list does not
prime the store at all — it aborts: the first completed computation raises
the miss-path `AttributeError`, which the per-item handler
`except (ValueError, KeyError, TypeError)` does not catch, so no intent is
inserted, the precomputed counter is never incremented, and `__init__`
propagates the exception (no subsequent lookup can be a hit). -/
theorem c3_counterexample :
    precomputeIntentsReal (fun s => s) 0 0 (initState 10000 3600) commonIntents =
      Except.error (PyErr.attributeError "get_base_qos") := rfl

/-- C3 amended: the warmer never completes on any non-empty intent list:
every dispatched `_compute_and_cache(..., precompute=True)` raises
`AttributeError` at the `get_base_qos` lookup, which escapes the
`(ValueError, KeyError, TypeError)` handler, so the warm-up aborts with an
exception instead of returning a state — nothing is ever inserted into the
cache store and the precomputed counter never moves. -/
theorem c3_amended_warmer_aborts :
    ∀ (sha : String → String) (now ptime : ℚ) (st : CacheState) (intent : String)
      (rest : List String),
      precomputeIntentsReal sha now ptime st (intent :: rest) =
        Except.error (PyErr.attributeError "get_base_qos") := by
  intro sha now ptime st intent rest
  have hm : ¬ ("get_base_qos" ∈ intentProcessorMethodNames) := by decide
  simp only [precomputeIntentsReal, computeAndCacheReal, if_neg hm,
    catchableInPrecompute, Bool.false_eq_true, if_false]

/-- C9: contrary to the claim, `batch_process` does not return one result per
input for every intent list: each computation fails with the miss-path
`AttributeError` (see C1), which is not among the exceptions the per-item
handler catches (`ValueError`, `RuntimeError`), so the whole batch call
raises instead of substituting default results. -/
theorem c9_batch_aborts_on_attribute_error :
    batchProcessRealAt (fun s => s) 0 0 (initState 10000 3600) ["A", "B", "C"] =
      Except.error (PyErr.attributeError "get_base_qos") := by
  rfl
